import Mathlib

/-
Shallow embedding of the meows crawler (src/crawler) and verification of its
specification claims.

The embedding translates the Rust sources:
  src/crawler/src/source/mod.rs                (Content, MatchMode, SourceFilters, build_source)
  src/crawler/src/source/reddit.rs             (RedditClient: fetch_posts, apply_config_filters, fetch)
  src/crawler/src/source/semantic_scholar.rs   (SemanticScholarClient: fetch_with_retry,
                                                convert_and_filter, paper_to_content)
  src/crawler/src/config.rs                    (RedditConfig, SemanticScholarConfig, SourceConfig)
  src/crawler/src/main.rs                      (orchestration: buffered fetches, try_collect, flatten)

Network interaction is modelled by passing the provider's responses explicitly:
a Reddit fetch receives the list of HTTP exchanges its pagination loop would
observe in order, and the Semantic Scholar retry loop receives the endpoint as a
function from the request's attempt index to the response.  Machine integers
(i32, i64, usize, u64) are modelled as Int and Nat: none of the verified
behaviour approaches overflow.  Rust `to_lowercase` is modelled as per-character
lowercasing and `str::contains` as character-level substring search.
-/

/-- Case folding of a string, one character at a time (models Rust
`str::to_lowercase` as used on titles, bodies and keywords). -/
def lowerStr (s : String) : String := String.mk (s.data.map Char.toLower)

/-- Character-list `leadEq pat l` is true when `pat` occurs at the very start
of `l` (helper for the substring test). -/
def leadEq : List Char → List Char → Bool
  | [], _ => true
  | _ :: _, [] => false
  | a :: pa, b :: tb => a == b && leadEq pa tb

/-- Character-level substring occurrence: does `pat` occur contiguously inside
the list? -/
def charsHasSub (pat : List Char) : List Char → Bool
  | [] => leadEq pat []
  | c :: rest => leadEq pat (c :: rest) || charsHasSub pat rest

/-- Substring test on strings (models Rust `str::contains` with a string
pattern). -/
def strHasSub (text pat : String) : Bool := charsHasSub pat.data text.data

/-- Common content structure for crawled data across all sources
(src/crawler/src/source/mod.rs, struct Content). -/
structure Content where
  id : String
  title : String
  body : String
  url : Option String
  author : String
  created_utc : Int
  score : Int
  num_comments : Int
  source_type : String
  source_id : String
deriving DecidableEq, Repr

/-- Match mode for keyword filtering (src/crawler/src/source/mod.rs). -/
inductive MatchMode where
  | Any : MatchMode
  | All : MatchMode
deriving DecidableEq, Repr

/-- Runtime filters applied to any source (src/crawler/src/source/mod.rs,
struct SourceFilters). -/
structure SourceFilters where
  keywords : List String
  lowercase_keywords : List String
  match_mode : MatchMode
deriving DecidableEq, Repr

/-- SourceFilters::new — keeps the original keywords and a pre-lowercased
copy. -/
def SourceFilters.new (keywords : List String) (match_mode : MatchMode) : SourceFilters :=
  { keywords := keywords
    lowercase_keywords := keywords.map lowerStr
    match_mode := match_mode }

/-- SourceFilters::matches — an empty keyword list matches everything;
otherwise the lowercased "title body" concatenation must contain at least one
(Any) or every (All) lowercased keyword. -/
def SourceFilters.matches (f : SourceFilters) (content : Content) : Bool :=
  if f.lowercase_keywords.isEmpty then
    true
  else
    let text := lowerStr (content.title ++ " " ++ content.body)
    match f.match_mode with
    | MatchMode.Any => f.lowercase_keywords.any fun keyword => strHasSub text keyword
    | MatchMode.All => f.lowercase_keywords.all fun keyword => strHasSub text keyword

/-- Reddit source configuration (src/crawler/src/config.rs, struct
RedditConfig). -/
structure RedditConfig where
  subreddit : String
  limit : Nat
  sort_by : String
  time_filter : Option String
  min_score : Int
  min_comments : Int
  user_agent : String
  rate_limit_delay_ms : Nat
deriving DecidableEq, Repr

/-- One post of a parsed Reddit listing (src/crawler/src/source/reddit.rs,
struct RedditPost; the unused `subreddit` field is omitted). -/
structure RedditPost where
  id : String
  title : String
  selftext : String
  url : Option String
  author : String
  created_utc : Int
  score : Int
  num_comments : Int
deriving DecidableEq, Repr

/-- One HTTP exchange of the Reddit pagination loop: the response status and,
for successful responses, the parsed listing body — the posts (`children`) and
the optional `after` pagination token (struct RedditResponse / RedditData in
src/crawler/src/source/reddit.rs). -/
structure RedditHttp where
  status : Nat
  children : List RedditPost
  after : Option String
deriving DecidableEq, Repr

/-- Errors of the Reddit fetch loop (the `bail!` branches of fetch_posts). -/
inductive RedditError where
  | rateLimited : RedditError
  | apiError (status : Nat) : RedditError
deriving DecidableEq, Repr

/-- The Content record built for one Reddit post inside fetch_posts
(src/crawler/src/source/reddit.rs, the map over `children`). -/
def redditToContent (cfg : RedditConfig) (post : RedditPost) : Content :=
  { id := post.id
    title := post.title
    body := post.selftext
    url := post.url
    author := post.author
    created_utc := post.created_utc
    score := post.score
    num_comments := post.num_comments
    source_type := "reddit"
    source_id := "reddit:" ++ cfg.subreddit ++ ":" ++ cfg.sort_by }

/-- RedditClient::apply_config_filters — keep the contents meeting the
min_score and min_comments floors. -/
def apply_config_filters (cfg : RedditConfig) (contents : List Content) : List Content :=
  contents.filter fun content =>
    decide (cfg.min_score ≤ content.score) && decide (cfg.min_comments ≤ content.num_comments)

/-- The pagination loop of RedditClient::fetch_posts, with the accumulator
explicit.  `responses` lists the provider's HTTP answers in request order;
the second component counts the requests the loop issued.  The `[]` case is
reached only if the loop would issue a request beyond the supplied responses
(theorems supply enough responses for the loop to stop on its own).  On HTTP
429 the loop fails immediately; on any other non-2xx status it fails with the
status; on success it converts the children, applies the numeric floors,
appends, truncates-and-stops once the accumulated count reaches
`cfg.limit`, and otherwise continues exactly when an `after` token is
present. -/
def fetch_posts_go (cfg : RedditConfig) (acc : List Content) :
    List RedditHttp → Except RedditError (List Content) × Nat
  | [] => (Except.ok acc, 0)
  | response :: rest =>
    if response.status = 429 then
      (Except.error RedditError.rateLimited, 1)
    else if ¬ (200 ≤ response.status ∧ response.status < 300) then
      (Except.error (RedditError.apiError response.status), 1)
    else
      let contents := response.children.map (redditToContent cfg)
      let newAcc := acc ++ apply_config_filters cfg contents
      if cfg.limit ≤ newAcc.length then
        (Except.ok (newAcc.take cfg.limit), 1)
      else
        match response.after with
        | some _ =>
          let next := fetch_posts_go cfg newAcc rest
          (next.1, next.2 + 1)
        | none => (Except.ok newAcc, 1)

/-- RedditClient::fetch_posts — the loop started with an empty accumulator. -/
def fetch_posts (cfg : RedditConfig) (responses : List RedditHttp) :
    Except RedditError (List Content) × Nat :=
  fetch_posts_go cfg [] responses

/-- `Source::fetch` for RedditClient — fetch_posts, then retain the contents
matching the shared keyword filters. -/
def RedditClient.fetch (cfg : RedditConfig) (filters : SourceFilters)
    (responses : List RedditHttp) : Except RedditError (List Content) × Nat :=
  match fetch_posts cfg responses with
  | (Except.ok contents, n) => (Except.ok (contents.filter fun c => filters.matches c), n)
  | (Except.error e, n) => (Except.error e, n)

/-- A response list "until exhaustion": nonempty, every response but the last
carries an `after` pagination token, and the last one carries none. -/
def untilExhaustion : List RedditHttp → Bool
  | [] => false
  | [r] => r.after.isNone
  | r :: r2 :: rest => r.after.isSome && untilExhaustion (r2 :: rest)

/-- Total number of items the provider holds across a response list. -/
def totalChildren (responses : List RedditHttp) : Nat :=
  (responses.map fun r => r.children.length).sum

/-- One author record of a Semantic Scholar paper
(src/crawler/src/source/semantic_scholar.rs, struct Author). -/
structure Author where
  author_id : Option String
  name : Option String
deriving DecidableEq, Repr

/-- One paper record of a Semantic Scholar response
(src/crawler/src/source/semantic_scholar.rs, struct Paper). -/
structure Paper where
  paper_id : String
  title : Option String
  abstract_text : Option String
  year : Option Int
  citation_count : Option Int
  url : Option String
  authors : List Author
deriving DecidableEq, Repr

/-- Semantic Scholar mode (src/crawler/src/config.rs, enum
SemanticScholarMode). -/
inductive SemanticScholarMode where
  | search (query : String) (year : Option String) : SemanticScholarMode
  | recommendations (paper_id : String) : SemanticScholarMode
deriving DecidableEq, Repr

/-- Semantic Scholar source configuration (src/crawler/src/config.rs, struct
SemanticScholarConfig). -/
structure SemanticScholarConfig where
  mode : SemanticScholarMode
  max_results : Nat
  min_citations : Int
  api_key : Option String
  rate_limit_delay_ms : Nat
deriving DecidableEq, Repr

/-- Uppercase hexadecimal digit, for percent-encoding. -/
def hexDigit (n : Nat) : Char :=
  if n < 10 then Char.ofNat (48 + n) else Char.ofNat (55 + n)

/-- Percent-encoding of one UTF-8 byte as the urlencoding crate does it: the
bytes of A..Z, a..z, 0..9 and of the characters minus, dot, underscore and
tilde pass through, every other byte becomes %XX in uppercase hex. -/
def encodeByte (n : Nat) : List Char :=
  if (65 ≤ n ∧ n ≤ 90) ∨ (97 ≤ n ∧ n ≤ 122) ∨ (48 ≤ n ∧ n ≤ 57)
      ∨ n = 45 ∨ n = 46 ∨ n = 95 ∨ n = 126 then
    [Char.ofNat n]
  else
    ['%', hexDigit (n / 16), hexDigit (n % 16)]

/-- urlencoding::encode over the string's UTF-8 bytes. -/
def urlencode (s : String) : String :=
  String.mk ((s.toUTF8.toList.map fun b => encodeByte b.toNat).flatten)

/-- SemanticScholarClient::source_id — provider tag, mode tag and the
url-encoded query or paper id. -/
def s2_source_id (cfg : SemanticScholarConfig) : String :=
  match cfg.mode with
  | SemanticScholarMode.search query _ => "semantic_scholar:search:" ++ urlencode query
  | SemanticScholarMode.recommendations paper_id =>
      "semantic_scholar:recs:" ++ urlencode paper_id

/-- SemanticScholarClient::paper_to_content — defaults "Untitled" title and
empty body, first listed author's name or "Unknown", citation count as score,
zero comments, and the publication year mapped to
(year − 1970) · 31536000 seconds (365-day years), or 0 when absent. -/
def paper_to_content (cfg : SemanticScholarConfig) (paper : Paper) : Content :=
  { id := paper.paper_id
    title := paper.title.getD "Untitled"
    body := paper.abstract_text.getD ""
    url := paper.url
    author := (paper.authors.head?.bind Author.name).getD "Unknown"
    created_utc := (paper.year.map fun y => (y - 1970) * 31536000).getD 0
    score := paper.citation_count.getD 0
    num_comments := 0
    source_type := "semantic_scholar"
    source_id := s2_source_id cfg }

/-- SemanticScholarClient::convert_and_filter — drop papers with neither
title nor abstract, drop papers whose citation count (0 when absent) is below
min_citations, convert the rest in order. -/
def convert_and_filter (cfg : SemanticScholarConfig) (papers : List Paper) : List Content :=
  papers.filterMap fun paper =>
    if paper.title.isNone && paper.abstract_text.isNone then
      none
    else if paper.citation_count.getD 0 < cfg.min_citations then
      none
    else
      some (paper_to_content cfg paper)

/-- One HTTP response as seen by the Semantic Scholar retry loop: the status
and the value of a Retry-After header when present and parseable as an
unsigned integer (seconds). -/
structure S2Response where
  status : Nat
  retry_after : Option Nat
deriving DecidableEq, Repr

/-- Terminal outcome of fetch_with_retry. -/
inductive S2Outcome where
  | ok (attempt : Nat) : S2Outcome
  | rateLimitFatal : S2Outcome
  | serverErrorFatal (status : Nat) : S2Outcome
  | clientErrorFatal (status : Nat) : S2Outcome
  | unexpectedFatal (status : Nat) : S2Outcome
deriving DecidableEq, Repr

/-- The fixed retry ceiling of SemanticScholarClient::fetch_with_retry. -/
def MAX_RETRIES : Nat := 3

/-- Delay (in milliseconds) before a retry of a 429 response: the Retry-After
header value converted seconds→ms when present, else 2^attempt seconds. -/
def retry_delay_ms (r : S2Response) (attempt : Nat) : Nat :=
  match r.retry_after with
  | some s => s * 1000
  | none => 2 ^ attempt * 1000

/-- SemanticScholarClient::fetch_with_retry.  `ep` maps the attempt counter
(which equals the index of the request being sent) to the provider's
response.  Returns the terminal outcome, the number of requests sent from
this attempt on, and the list of delays slept before each retry.  The source
loop: 200 succeeds; 429 is fatal once `attempt` reaches MAX_RETRIES and
otherwise sleeps `retry_delay_ms` and retries; 5xx likewise but with the pure
exponential backoff delay; any other 4xx is immediately fatal; any remaining
status is immediately fatal. -/
def fetch_with_retry_go (ep : Nat → S2Response) (attempt : Nat) :
    S2Outcome × Nat × List Nat :=
  let r := ep attempt
  if r.status = 200 then
    (S2Outcome.ok attempt, 1, [])
  else if r.status = 429 then
    if h : MAX_RETRIES ≤ attempt then
      (S2Outcome.rateLimitFatal, 1, [])
    else
      let next := fetch_with_retry_go ep (attempt + 1)
      (next.1, next.2.1 + 1, retry_delay_ms r attempt :: next.2.2)
  else if 500 ≤ r.status ∧ r.status < 600 then
    if h : MAX_RETRIES ≤ attempt then
      (S2Outcome.serverErrorFatal r.status, 1, [])
    else
      let next := fetch_with_retry_go ep (attempt + 1)
      (next.1, next.2.1 + 1, 2 ^ attempt * 1000 :: next.2.2)
  else if 400 ≤ r.status ∧ r.status < 500 then
    (S2Outcome.clientErrorFatal r.status, 1, [])
  else
    (S2Outcome.unexpectedFatal r.status, 1, [])
termination_by MAX_RETRIES + 1 - attempt
decreasing_by
  · omega
  · omega

/-- fetch_with_retry starts with attempt = 0. -/
def fetch_with_retry (ep : Nat → S2Response) : S2Outcome × Nat × List Nat :=
  fetch_with_retry_go ep 0

/-- Tagged source configuration (src/crawler/src/config.rs, enum
SourceConfig: one variant per provider kind). -/
inductive SourceConfig where
  | reddit (cfg : RedditConfig) : SourceConfig
  | semanticscholar (cfg : SemanticScholarConfig) : SourceConfig
deriving DecidableEq, Repr

/-- A constructed source adapter instance (the boxed Source trait object
returned by build_source). -/
inductive SourceInstance where
  | redditClient (cfg : RedditConfig) : SourceInstance
  | semanticScholarClient (cfg : SemanticScholarConfig) : SourceInstance
deriving DecidableEq, Repr

/-- build_source (src/crawler/src/source/mod.rs:123-132).  The source's
`match config` has exactly one arm, for SourceConfig::Reddit, which runs
RedditClient::new (reporting an error for an empty subreddit or user agent).
There is NO arm for SourceConfig::SemanticScholar in the source, and
source/mod.rs declares only the `reddit` submodule — a paper-search entry can
never be built; the missing arm is modelled as an error value. -/
def build_source (config : SourceConfig) : Except String SourceInstance :=
  match config with
  | SourceConfig.reddit reddit_config =>
    if reddit_config.subreddit = "" then
      Except.error "subreddit cannot be empty"
    else if reddit_config.user_agent = "" then
      Except.error "user_agent cannot be empty"
    else
      Except.ok (SourceInstance.redditClient reddit_config)
  | SourceConfig.semanticscholar _ =>
    Except.error "no match arm for SourceConfig::SemanticScholar in build_source"

/-- One configuration entry (src/crawler/src/config.rs, struct
SourceEntry). -/
structure SourceEntry where
  enabled : Bool
  config : SourceConfig
deriving DecidableEq, Repr

/-- Fail-fast collection of a list of results, as Rust's
`collect::<Result<Vec<_>>>()` and the futures `try_collect` do: the first
error in list order, else the list of successes. -/
def tryCollect {E A : Type} : List (Except E A) → Except E (List A)
  | [] => Except.ok []
  | Except.error e :: _ => Except.error e
  | Except.ok a :: rest => (tryCollect rest).map fun l => a :: l

/-- main.rs:81-98 — keep the enabled entries, build one adapter per entry,
collect fail-fast. -/
def buildSources (entries : List SourceEntry) : Except String (List SourceInstance) :=
  tryCollect ((entries.filter fun e => e.enabled).map fun e => build_source e.config)

/-- main.rs:106-125 — collect the per-source fetch results in source order
(the `buffered` stream yields outputs in input order), fail-fast on the first
error, and flatten the successes into one sequence. -/
def flattenResults (results : List (Except String (List Content))) :
    Except String (List Content) :=
  (tryCollect results).map List.flatten

/-- main.rs:129-132 — the sequence handed to output::write_json, when any:
the `?` operator returns the fetch error before the output boundary is
reached, so nothing is emitted on error. -/
def emittedOutput (results : List (Except String (List Content))) :
    Option (List Content) :=
  match flattenResults results with
  | Except.ok contents => some contents
  | Except.error _ => none

/-! Helper lemmas shared by several claims. -/

/-- With no keywords configured, the filter matches every content item. -/
lemma matches_empty_keywords (mode : MatchMode) (c : Content) :
    (SourceFilters.new [] mode).matches c = true := by
  simp [SourceFilters.new, SourceFilters.matches]

/-- A filterMap whose function is "if the predicate holds, convert, else
drop" is a filter followed by a map. -/
lemma filterMap_eq_filter_map {α β : Type} (f : α → Option β) (q : α → Bool) (g : α → β)
    (h : ∀ a, f a = if q a then some (g a) else none) :
    ∀ l : List α, l.filterMap f = (l.filter q).map g := by
  intro l
  induction l with
  | nil => rfl
  | cons a t ih =>
    cases hq : q a <;> simp [List.filterMap_cons, List.filter_cons, h a, hq, ih]

/-- tryCollect of a list of successes is the list of their values. -/
lemma tryCollect_map_ok {E A : Type} (l : List A) :
    tryCollect (E := E) (l.map Except.ok) = Except.ok l := by
  induction l with
  | nil => rfl
  | cons a rest ih => simp [tryCollect, ih, Except.map]

/-- tryCollect returns the error of the first failed element. -/
lemma tryCollect_first_error {E A : Type} :
    ∀ (rs : List (Except E A)), (∃ e, Except.error e ∈ rs) →
      ∃ e, Except.error e ∈ rs ∧ tryCollect rs = Except.error e := by
  intro rs
  induction rs with
  | nil => rintro ⟨e, he⟩; cases he
  | cons r rest ih =>
    rintro ⟨e, he⟩
    cases r with
    | error e' => exact ⟨e', List.mem_cons_self _ _, rfl⟩
    | ok a =>
      have hrest : ∃ e, Except.error e ∈ rest := by
        rcases List.mem_cons.mp he with h1 | h2
        · simp at h1
        · exact ⟨e, h2⟩
      rcases ih hrest with ⟨e', hmem, heq⟩
      exact ⟨e', List.mem_cons_of_mem _ hmem, by simp [tryCollect, heq, Except.map]⟩

/-- An example content item whose text holds no keywords. -/
def cNoKw : Content :=
  { id := "1", title := "x", body := "", url := none, author := "a",
    created_utc := 0, score := 0, num_comments := 0,
    source_type := "reddit", source_id := "reddit:x:hot" }

/-- C10: when the keyword set is empty, `SourceFilters::matches` returns true
for every Content regardless of match mode, `retain` keeps every item, and
the Reddit adapter's fetch output is then exactly its fetch_posts output —
constrained only by the provider-level numeric filters. -/
theorem empty_keywords_match_everything (mode : MatchMode) (c : Content)
    (l : List Content) (cfg : RedditConfig) (responses : List RedditHttp) :
    (SourceFilters.new [] mode).matches c = true
    ∧ l.filter (SourceFilters.new [] mode).matches = l
    ∧ RedditClient.fetch cfg (SourceFilters.new [] mode) responses = fetch_posts cfg responses := by
  refine ⟨matches_empty_keywords mode c,
          List.filter_eq_self.mpr fun a _ => matches_empty_keywords mode a, ?_⟩
  cases hp : fetch_posts cfg responses with
  | mk res n =>
    cases res with
    | ok contents =>
      simp [RedditClient.fetch, hp,
            List.filter_eq_self.mpr fun a _ => matches_empty_keywords mode a]
    | error e => simp [RedditClient.fetch, hp]

/-- C4 counterexample: the claim quantifies over EVERY keyword set, but with
the empty keyword set in Any mode the filter retains cNoKw (matches returns
true when the keyword list is empty) even though its case-folded title+body
contains none of the (zero) keywords — the "at least one keyword" clause is
false there. -/
theorem keyword_filter_any_empty_counterexample :
    ¬ (∀ c ∈ [cNoKw].filter (SourceFilters.new [] MatchMode.Any).matches,
        ∃ kw ∈ (SourceFilters.new [] MatchMode.Any).lowercase_keywords,
          strHasSub (lowerStr (c.title ++ " " ++ c.body)) kw = true) := by
  intro h
  rcases h cNoKw (by decide) with ⟨kw, hkw, _⟩
  simp [SourceFilters.new] at hkw

/-- C4 (amended: the keyword set must be non-empty; with an empty keyword set
the filter retains everything, see the C10 theorem): for every non-empty
keyword set, match mode and content list, filtering retains a subset, and
every retained item's case-folded title+body contains at least one
case-folded keyword in Any mode and every case-folded keyword in All mode. -/
theorem keyword_filter_sound (keywords : List String) (mode : MatchMode)
    (contents : List Content) (hne : keywords ≠ []) :
    (contents.filter (SourceFilters.new keywords mode).matches).length ≤ contents.length
    ∧ ∀ c ∈ contents.filter (SourceFilters.new keywords mode).matches,
        (mode = MatchMode.Any →
          ∃ kw ∈ keywords.map lowerStr,
            strHasSub (lowerStr (c.title ++ " " ++ c.body)) kw = true)
        ∧ (mode = MatchMode.All →
          ∀ kw ∈ keywords.map lowerStr,
            strHasSub (lowerStr (c.title ++ " " ++ c.body)) kw = true) := by
  refine ⟨List.length_filter_le _ _, ?_⟩
  intro c hc
  have hmatch := (List.mem_filter.mp hc).2
  have hisE : ((SourceFilters.new keywords mode).lowercase_keywords).isEmpty = false := by
    simp [SourceFilters.new, hne]
  rw [SourceFilters.matches, hisE] at hmatch
  simp only [Bool.false_eq_true, if_false] at hmatch
  constructor
  · rintro rfl
    simp only [SourceFilters.new] at hmatch
    exact List.any_eq_true.mp hmatch
  · rintro rfl
    simp only [SourceFilters.new] at hmatch
    exact List.all_eq_true.mp hmatch

/-- An example content item containing the keyword "rust". -/
def cRust : Content :=
  { id := "2", title := "Learning Rust", body := "a great language",
    url := none, author := "u", created_utc := 0, score := 10,
    num_comments := 2, source_type := "reddit", source_id := "reddit:rust:hot" }

/-- Witness for the amended C4 theorem at keywords ["Rust"], Any mode. -/
theorem keyword_filter_sound_witness :
    (["Rust"] ≠ ([] : List String))
    ∧ (([cRust, cNoKw].filter (SourceFilters.new ["Rust"] MatchMode.Any).matches).length
          ≤ [cRust, cNoKw].length
       ∧ ∀ c ∈ [cRust, cNoKw].filter (SourceFilters.new ["Rust"] MatchMode.Any).matches,
          (MatchMode.Any = MatchMode.Any →
            ∃ kw ∈ ["Rust"].map lowerStr,
              strHasSub (lowerStr (c.title ++ " " ++ c.body)) kw = true)
          ∧ (MatchMode.Any = MatchMode.All →
            ∀ kw ∈ ["Rust"].map lowerStr,
              strHasSub (lowerStr (c.title ++ " " ++ c.body)) kw = true)) :=
  ⟨by decide, keyword_filter_sound ["Rust"] MatchMode.Any [cRust, cNoKw] (by decide)⟩

/-- C5: if any source's fetch result is a fatal error, the orchestrator's
overall result is a fetch error (the first one in source order) and nothing
reaches the output boundary — no partial-success output exists. -/
theorem orchestrator_fatal_error_aborts (results : List (Except String (List Content)))
    (h : ∃ e, Except.error e ∈ results) :
    (∃ e, Except.error e ∈ results ∧ flattenResults results = Except.error e)
    ∧ emittedOutput results = none := by
  rcases tryCollect_first_error results h with ⟨e, hmem, heq⟩
  refine ⟨⟨e, hmem, ?_⟩, ?_⟩
  · simp [flattenResults, heq, Except.map]
  · simp [emittedOutput, flattenResults, heq, Except.map]

/-- Witness for C5: one succeeding source and one failing source — the run
fails with the fetch error and emits nothing. -/
theorem orchestrator_fatal_error_aborts_witness :
    (∃ e, Except.error e ∈
        ([Except.ok [cRust], Except.error "boom"] : List (Except String (List Content))))
    ∧ ((∃ e, Except.error e ∈
          ([Except.ok [cRust], Except.error "boom"] : List (Except String (List Content)))
          ∧ flattenResults [Except.ok [cRust], Except.error "boom"] = Except.error e)
       ∧ emittedOutput [Except.ok [cRust], Except.error "boom"] = none) :=
  ⟨⟨"boom", by simp⟩,
   orchestrator_fatal_error_aborts [Except.ok [cRust], Except.error "boom"]
     ⟨"boom", by simp⟩⟩

/-- C6: on success the orchestrator's final sequence is the concatenation of
the per-source result lists in source-declaration order (the buffered stream
yields in input order), and exactly this flattened sequence is handed to the
output boundary. -/
theorem orchestrator_success_flatten (lists : List (List Content)) :
    flattenResults (lists.map Except.ok) = Except.ok lists.flatten
    ∧ emittedOutput (lists.map Except.ok) = some lists.flatten := by
  have h := tryCollect_map_ok (E := String) lists
  exact ⟨by simp [flattenResults, h, Except.map],
         by simp [emittedOutput, flattenResults, h, Except.map]⟩

/-- A validated paper-search entry: search mode, query "ml", max_results 5,
min_citations 10 (config.rs accepts it). -/
def s2EntryCfg : SemanticScholarConfig :=
  { mode := SemanticScholarMode.search "ml" none
    max_results := 5
    min_citations := 10
    api_key := none
    rate_limit_delay_ms := 1000 }

/-- C1 (code bug): build_source has no arm for a paper-search entry, so an
enabled SemanticScholar entry can never yield a paper-search adapter — both
build_source itself and main's build-all-enabled-sources step fail on it,
although config.rs validates such entries and semantic_scholar.rs implements
the full adapter. -/
theorem build_source_paper_search_missing :
    build_source (SourceConfig.semanticscholar s2EntryCfg)
      = Except.error "no match arm for SourceConfig::SemanticScholar in build_source"
    ∧ buildSources [{ enabled := true, config := SourceConfig.semanticscholar s2EntryCfg }]
      = Except.error "no match arm for SourceConfig::SemanticScholar in build_source" :=
  ⟨rfl, rfl⟩

/-- Scenario paper with 20 citations. -/
def exPaper20 : Paper :=
  { paper_id := "p20", title := some "Alpha", abstract_text := some "ml paper",
    year := some 2020, citation_count := some 20, url := none, authors := [] }

/-- Scenario paper with 5 citations. -/
def exPaper5 : Paper :=
  { paper_id := "p5", title := some "Beta", abstract_text := some "another",
    year := some 2021, citation_count := some 5, url := none, authors := [] }

/-- Scenario paper with 15 citations. -/
def exPaper15 : Paper :=
  { paper_id := "p15", title := none, abstract_text := some "gamma",
    year := none, citation_count := some 15, url := none,
    authors := [{ author_id := some "a1", name := some "Jane Doe" }] }

/-- C8: the paper post-processing equals "keep the papers having a title or
an abstract and at least min_citations citations (absent counts as 0), then
convert in order" — so relative order is preserved; conversion maps year y to
(y − 1970)·365·86400 seconds (0 when absent), takes the first listed author's
name or "Unknown", citation count as score and 0 comments; and on the
scenario papers with citations [20, 5, 15] and minimum 10 exactly the 20- and
15-citation ids survive, in that order. -/
theorem s2_postprocess (cfg : SemanticScholarConfig) (papers : List Paper) :
    convert_and_filter cfg papers
      = ((papers.filter fun p =>
            (p.title.isSome || p.abstract_text.isSome)
            && decide (cfg.min_citations ≤ p.citation_count.getD 0)).map (paper_to_content cfg))
    ∧ (∀ p : Paper,
        (paper_to_content cfg p).score = p.citation_count.getD 0
        ∧ (paper_to_content cfg p).num_comments = 0
        ∧ (paper_to_content cfg p).author = (p.authors.head?.bind Author.name).getD "Unknown"
        ∧ (paper_to_content cfg p).created_utc
            = (p.year.map fun y => (y - 1970) * (365 * 86400)).getD 0)
    ∧ (convert_and_filter s2EntryCfg [exPaper20, exPaper5, exPaper15]).map Content.id
        = [exPaper20.paper_id, exPaper15.paper_id] := by
  refine ⟨?_, ?_, by decide⟩
  · apply filterMap_eq_filter_map
    intro p
    cases ht : p.title <;> cases ha : p.abstract_text <;>
      by_cases hc : p.citation_count.getD 0 < cfg.min_citations <;>
        simp [ht, ha, hc, Int.not_lt.mp, le_of_not_lt, not_le_of_lt]
  · intro p
    refine ⟨rfl, rfl, rfl, ?_⟩
    cases hy : p.year with
    | none => simp [paper_to_content, hy]
    | some y => simp [paper_to_content, hy]

/-- A 429 response at the retry ceiling is a fatal rate-limit error. -/
lemma fetch_with_retry_go_429_stop (ep : Nat → S2Response) (attempt : Nat)
    (h : (ep attempt).status = 429) (hge : MAX_RETRIES ≤ attempt) :
    fetch_with_retry_go ep attempt = (S2Outcome.rateLimitFatal, 1, []) := by
  rw [fetch_with_retry_go]
  simp [h, hge]

/-- A 429 response below the retry ceiling sleeps retry_delay_ms and
retries. -/
lemma fetch_with_retry_go_429_retry (ep : Nat → S2Response) (attempt : Nat)
    (h : (ep attempt).status = 429) (hlt : attempt < MAX_RETRIES) :
    fetch_with_retry_go ep attempt
      = ((fetch_with_retry_go ep (attempt + 1)).1,
         (fetch_with_retry_go ep (attempt + 1)).2.1 + 1,
         retry_delay_ms (ep attempt) attempt :: (fetch_with_retry_go ep (attempt + 1)).2.2) := by
  rw [fetch_with_retry_go]
  simp [h, Nat.not_le_of_lt hlt]

/-- C3: against an endpoint that always answers 429, the paper-search retry
loop issues MAX_RETRIES + 1 requests — i.e. exactly MAX_RETRIES retries —
sleeping before each retry the Retry-After header value (seconds→ms) when
present, else 2^attempt seconds, and ends in the fatal rate-limit outcome;
the Reddit loop fails with the fatal rate-limit error on the very first 429,
issuing exactly one request whatever responses would follow (zero retries). -/
theorem retry_ceiling_on_429 (ep : Nat → S2Response) (cfg : RedditConfig)
    (first : RedditHttp) (rest : List RedditHttp)
    (h429 : ∀ n, (ep n).status = 429) (hfirst : first.status = 429) :
    fetch_with_retry ep
      = (S2Outcome.rateLimitFatal, MAX_RETRIES + 1,
         [retry_delay_ms (ep 0) 0, retry_delay_ms (ep 1) 1, retry_delay_ms (ep 2) 2])
    ∧ fetch_posts cfg (first :: rest) = (Except.error RedditError.rateLimited, 1) := by
  constructor
  · have e3 := fetch_with_retry_go_429_stop ep 3 (h429 3) (by decide)
    have e2 := fetch_with_retry_go_429_retry ep 2 (h429 2) (by decide)
    have e1 := fetch_with_retry_go_429_retry ep 1 (h429 1) (by decide)
    have e0 := fetch_with_retry_go_429_retry ep 0 (h429 0) (by decide)
    rw [fetch_with_retry, e0, e1, e2, e3]
    simp [MAX_RETRIES]
  · simp [fetch_posts, fetch_posts_go, hfirst]

/-- The endpoint that always answers 429 with no Retry-After header. -/
def ep429 : Nat → S2Response := fun _ => { status := 429, retry_after := none }

/-- A Reddit response with status 429. -/
def reddit429 : RedditHttp := { status := 429, children := [], after := none }

/-- The scenario Reddit configuration: subreddit "x", limit 3, no numeric
floors. -/
def exRedditCfg : RedditConfig :=
  { subreddit := "x", limit := 3, sort_by := "hot", time_filter := none,
    min_score := 0, min_comments := 0, user_agent := "ua",
    rate_limit_delay_ms := 0 }

/-- Witness for C3 at the always-429 endpoint and a first-response-429 Reddit
exchange. -/
theorem retry_ceiling_on_429_witness :
    fetch_with_retry ep429
      = (S2Outcome.rateLimitFatal, MAX_RETRIES + 1,
         [retry_delay_ms (ep429 0) 0, retry_delay_ms (ep429 1) 1, retry_delay_ms (ep429 2) 2])
    ∧ fetch_posts exRedditCfg (reddit429 :: []) = (Except.error RedditError.rateLimited, 1) :=
  retry_ceiling_on_429 ep429 exRedditCfg reddit429 [] (fun _ => rfl) rfl

/-- totalChildren unfolds over cons. -/
lemma totalChildren_cons (r : RedditHttp) (rest : List RedditHttp) :
    totalChildren (r :: rest) = r.children.length + totalChildren rest := by
  simp [totalChildren]

/-- When every post of a page passes the floors, apply_config_filters keeps
the whole page. -/
lemma apply_config_filters_all_pass (cfg : RedditConfig) (posts : List RedditPost)
    (h : ∀ p ∈ posts, cfg.min_score ≤ p.score ∧ cfg.min_comments ≤ p.num_comments) :
    apply_config_filters cfg (posts.map (redditToContent cfg))
      = posts.map (redditToContent cfg) := by
  apply List.filter_eq_self.mpr
  intro c hc
  rcases List.mem_map.mp hc with ⟨p, hp, rfl⟩
  simp [redditToContent, (h p hp).1, (h p hp).2]

/-- The pagination loop, run on pages served until exhaustion whose items all
pass the floors, succeeds and accumulates min(limit, everything available). -/
lemma fetch_posts_go_min_length (cfg : RedditConfig) :
    ∀ (responses : List RedditHttp), untilExhaustion responses = true →
      (∀ r ∈ responses, r.status = 200) →
      (∀ r ∈ responses, ∀ p ∈ r.children,
          cfg.min_score ≤ p.score ∧ cfg.min_comments ≤ p.num_comments) →
      ∀ (acc : List Content), acc.length < cfg.limit →
      ∃ out, (fetch_posts_go cfg acc responses).1 = Except.ok out
        ∧ out.length = min cfg.limit (acc.length + totalChildren responses) := by
  intro responses
  induction responses with
  | nil => intro hex; simp [untilExhaustion] at hex
  | cons r rest ih =>
    intro hex hok hpass acc hacc
    have hr200 : r.status = 200 := hok r (List.mem_cons_self _ _)
    have hfilter := apply_config_filters_all_pass cfg r.children
      (hpass r (List.mem_cons_self _ _))
    have hlen : (acc ++ r.children.map (redditToContent cfg)).length
        = acc.length + r.children.length := by simp
    simp only [fetch_posts_go, hr200, hfilter]
    rw [if_neg (by decide), if_neg (by decide)]
    by_cases hlim : cfg.limit ≤ (acc ++ r.children.map (redditToContent cfg)).length
    · rw [if_pos hlim]
      refine ⟨(acc ++ r.children.map (redditToContent cfg)).take cfg.limit, rfl, ?_⟩
      rw [List.length_take, totalChildren_cons]
      rw [hlen] at hlim ⊢
      omega
    · rw [if_neg hlim]
      cases rest with
      | nil =>
        have hafter : r.after = none := by
          simpa [untilExhaustion, Option.isNone_iff_eq_none] using hex
        rw [hafter]
        refine ⟨acc ++ r.children.map (redditToContent cfg), rfl, ?_⟩
        rw [totalChildren_cons, hlen]
        rw [hlen] at hlim
        simp only [totalChildren, List.map_nil, List.sum_nil]
        omega
      | cons r2 rest' =>
        have hx : r.after.isSome = true ∧ untilExhaustion (r2 :: rest') = true := by
          simpa using
            (show (r.after.isSome && untilExhaustion (r2 :: rest')) = true from hex)
        obtain ⟨tok, htok⟩ := Option.isSome_iff_exists.mp hx.1
        rw [htok]
        rcases ih hx.2
            (fun x hx' => hok x (List.mem_cons_of_mem _ hx'))
            (fun x hx' => hpass x (List.mem_cons_of_mem _ hx'))
            (acc ++ r.children.map (redditToContent cfg))
            (by rw [hlen]; rw [hlen] at hlim; omega)
          with ⟨out, h1, h2⟩
        refine ⟨out, by simpa using h1, ?_⟩
        rw [h2, hlen]
        have ht1 := totalChildren_cons r (r2 :: rest')
        have ht2 := totalChildren_cons r2 rest'
        omega

/-- C2: for an (always-validated) positive target limit, pages served with
status 200 until exhaustion, and no effective numeric or keyword filters
(floors satisfied by every item, empty keyword set), the Reddit adapter's
fetch succeeds and returns exactly min(target limit, total available) items:
the loop stops by truncating to the limit or at the page with no `after`
cursor. -/
theorem reddit_pagination_min_length (cfg : RedditConfig) (mode : MatchMode)
    (responses : List RedditHttp)
    (hpos : 0 < cfg.limit)
    (hex : untilExhaustion responses = true)
    (hok : ∀ r ∈ responses, r.status = 200)
    (hpass : ∀ r ∈ responses, ∀ p ∈ r.children,
        cfg.min_score ≤ p.score ∧ cfg.min_comments ≤ p.num_comments) :
    ∃ out, (RedditClient.fetch cfg (SourceFilters.new [] mode) responses).1 = Except.ok out
      ∧ out.length = min cfg.limit (totalChildren responses) := by
  rcases fetch_posts_go_min_length cfg responses hex hok hpass [] (by simpa using hpos)
    with ⟨out, h1, h2⟩
  cases hp : fetch_posts cfg responses with
  | mk res n =>
    have hp' : fetch_posts_go cfg [] responses = (res, n) := hp
    rw [hp'] at h1
    simp only at h1
    subst h1
    refine ⟨out, ?_, by simpa using h2⟩
    simp [RedditClient.fetch, hp,
          List.filter_eq_self.mpr fun a _ => matches_empty_keywords mode a]

/-- An example post passing zero floors. -/
def exPostA : RedditPost :=
  { id := "a", title := "t1", selftext := "", url := none, author := "u",
    created_utc := 0, score := 1, num_comments := 1 }

/-- A second example post. -/
def exPostB : RedditPost :=
  { id := "b", title := "t2", selftext := "", url := none, author := "u",
    created_utc := 0, score := 2, num_comments := 0 }

/-- The scenario pages: two pages of two items each, the first carrying an
`after` cursor, the second carrying none. -/
def exPages : List RedditHttp :=
  [{ status := 200, children := [exPostA, exPostB], after := some "t3_b" },
   { status := 200, children := [exPostA, exPostB], after := none }]

/-- Witness for C2 at the scenario: limit 3, two pages of two items → the
fetch succeeds with min 3 4 = 3 items. -/
theorem reddit_pagination_min_length_witness :
    ∃ out, (RedditClient.fetch exRedditCfg (SourceFilters.new [] MatchMode.Any) exPages).1
        = Except.ok out
      ∧ out.length = min exRedditCfg.limit (totalChildren exPages) :=
  reddit_pagination_min_length exRedditCfg MatchMode.Any exPages (by decide) (by decide)
    (by decide) (by decide)

/-- Every content the pagination loop accumulates passes the numeric
floors (invariant of fetch_posts_go). -/
lemma fetch_posts_go_floors (cfg : RedditConfig) :
    ∀ (responses : List RedditHttp) (acc out : List Content),
      (∀ c ∈ acc, cfg.min_score ≤ c.score ∧ cfg.min_comments ≤ c.num_comments) →
      (fetch_posts_go cfg acc responses).1 = Except.ok out →
      ∀ c ∈ out, cfg.min_score ≤ c.score ∧ cfg.min_comments ≤ c.num_comments := by
  intro responses
  induction responses with
  | nil =>
    intro acc out hacc hout
    simp only [fetch_posts_go] at hout
    simp at hout
    subst hout
    exact hacc
  | cons r rest ih =>
    intro acc out hacc hout
    by_cases h429 : r.status = 429
    · simp [fetch_posts_go, h429] at hout
    · by_cases h2xx : 200 ≤ r.status ∧ r.status < 300
      · simp only [fetch_posts_go] at hout
        rw [if_neg h429, if_neg (not_not_intro h2xx)] at hout
        have hnew : ∀ c ∈ acc ++ apply_config_filters cfg (r.children.map (redditToContent cfg)),
            cfg.min_score ≤ c.score ∧ cfg.min_comments ≤ c.num_comments := by
          intro c hc
          rcases List.mem_append.mp hc with h | h
          · exact hacc c h
          · have hb := (List.mem_filter.mp h).2
            simp only [Bool.and_eq_true, decide_eq_true_eq] at hb
            exact hb
        by_cases hlim : cfg.limit
            ≤ (acc ++ apply_config_filters cfg (r.children.map (redditToContent cfg))).length
        · rw [if_pos hlim] at hout
          simp at hout
          subst hout
          intro c hc
          exact hnew c (List.take_subset _ _ hc)
        · rw [if_neg hlim] at hout
          cases hafter : r.after with
          | some tok =>
            rw [hafter] at hout
            simp only at hout
            exact ih _ out hnew hout
          | none =>
            rw [hafter] at hout
            simp at hout
            subst hout
            exact hnew
      · simp [fetch_posts_go, h429, h2xx] at hout

/-- C7: every Content item the Reddit adapter's fetch returns satisfies both
configured floors, whatever the provider's pages and the keyword filters. -/
theorem reddit_fetch_respects_floors (cfg : RedditConfig) (filters : SourceFilters)
    (responses : List RedditHttp) (out : List Content) (c : Content)
    (hfetch : (RedditClient.fetch cfg filters responses).1 = Except.ok out)
    (hc : c ∈ out) :
    cfg.min_score ≤ c.score ∧ cfg.min_comments ≤ c.num_comments := by
  cases hp : fetch_posts cfg responses with
  | mk res n =>
    cases res with
    | error e => simp [RedditClient.fetch, hp] at hfetch
    | ok contents =>
      simp only [RedditClient.fetch, hp] at hfetch
      have hout : contents.filter (fun x => filters.matches x) = out := by
        simpa using hfetch
      have hcc : c ∈ contents := (List.mem_filter.mp (hout ▸ hc)).1
      exact fetch_posts_go_floors cfg responses [] contents (by simp)
        (by rw [show fetch_posts_go cfg [] responses = (Except.ok contents, n) from hp]) c hcc

/-- An example post above both floors. -/
def exPostHot : RedditPost :=
  { id := "h", title := "T", selftext := "B", url := none, author := "u",
    created_utc := 0, score := 5, num_comments := 4 }

/-- An example configuration with floors 1/1. -/
def exFloorCfg : RedditConfig :=
  { subreddit := "r", limit := 5, sort_by := "hot", time_filter := none,
    min_score := 1, min_comments := 1, user_agent := "ua",
    rate_limit_delay_ms := 0 }

/-- The single-page response list for the floors witness. -/
def exFloorResponses : List RedditHttp :=
  [{ status := 200, children := [exPostHot], after := none }]

/-- Witness for C7 at floors 1/1 and one passing post. -/
theorem reddit_fetch_respects_floors_witness :
    exFloorCfg.min_score ≤ (redditToContent exFloorCfg exPostHot).score
    ∧ exFloorCfg.min_comments ≤ (redditToContent exFloorCfg exPostHot).num_comments :=
  reddit_fetch_respects_floors exFloorCfg (SourceFilters.new [] MatchMode.Any)
    exFloorResponses [redditToContent exFloorCfg exPostHot]
    (redditToContent exFloorCfg exPostHot) (by rfl) (by simp)
